import Mathlib

/-!
# Shallow embedding of the PGS (S_HDMV/PGS) subtitle decoder

This file embeds the decoder found in `src/bdsup/mod.rs`,
`src/bdsup/window_adapter.rs` and `src/bdsup/pgs_types.rs` of the
`subtitle-processing-poc` repository, and proves/refutes the frozen claims
about it.

Machine integers (`u8`, `u16`, `u32`) are embedded as `Nat`; every value
read from the input byte stream is a byte produced by the byte cursor, so
arithmetic in the embedded functions never overflows its Rust width
(sums such as `window_pos + object_pos` are performed in `u32` in the
source, where `u16 + u16` cannot overflow).

Rust `panic!`/`unreachable!` sites are embedded as the `.panic` constructor
of `POut`, distinct from the typed `.err` constructor that embeds
`Result::Err(PgsError)`.
-/

namespace Pgs

/-- The typed error enum `PgsError` of `src/bdsup/mod.rs`. -/
inductive PgsError where
  | MissingPalette (palette_id : Nat) (composition_number : Nat)
  | MissingColor (color_id : Nat) (palette_id : Nat) (composition_number : Nat)
  | MissingObject (object_id : Nat) (composition_number : Nat)
  | MissingWindow (window_id : Nat) (composition_number : Nat)
  | RleFormatError
  | FormatError
deriving DecidableEq, Repr

/-- Outcome of running a piece of the decoder: the embedded counterpart of a
Rust expression of type `Result<α, PgsError>` whose evaluation may also
`panic!`. `.ok`/`.err` embed `Ok`/`Err`; `.panic` embeds a process abort. -/
inductive POut (α : Type) where
  | ok : α → POut α
  | err : PgsError → POut α
  | panic : String → POut α
deriving DecidableEq, Repr

/-- `true` exactly on the `.ok` constructor (embeds `Result::is_ok`). -/
def POut.isOk : POut α → Bool
  | .ok _ => true
  | _ => false

/-! ## Byte cursor

The repository's `PacketReader` lives in `src/binary_reader.rs`, which is not
among the provided sources; only its callers are. Per the spec (§2, "Byte
Cursor"): "a forward-only reader over a byte slice supporting fixed-width
big-endian integer reads and bounded sub-slice extraction". We model the
reader as the list of bytes not yet consumed. -/

/-- Modelled from the spec: `PacketReader::read_u8` of the missing
`src/binary_reader.rs` — reads one byte, `None` when exhausted. -/
def read_u8 : List Nat → Option (Nat × List Nat)
  | [] => none
  | b :: rest => some (b, rest)

/-- Modelled from the spec: `PacketReader::read_u16` of the missing
`src/binary_reader.rs` — reads a 2-byte big-endian integer. -/
def read_u16 (l : List Nat) : Option (Nat × List Nat) :=
  match l with
  | b0 :: b1 :: rest => some (b0 * 256 + b1, rest)
  | _ => none

/-- Modelled from the spec: `PacketReader::take_bytes` of the missing
`src/binary_reader.rs` — bounded sub-slice extraction of `n` bytes. -/
def take_bytes (n : Nat) (l : List Nat) : Option (List Nat × List Nat) :=
  if n ≤ l.length then some (l.take n, l.drop n) else none

/-- Modelled from the spec: `PacketReader::get_remaining_bytes` of the missing
`src/binary_reader.rs` — the number of bytes not yet consumed. -/
def get_remaining_bytes (l : List Nat) : Nat := l.length

/-! ## Segment type codes

The repository's `constants` module (`src/bdsup/constants.rs`) is not among
the provided sources. The spec (§6) fixes the values: "Segment type codes:
Palette=0x14, Object=0x15, Composition=0x16, Window=0x17, End=0x80". -/

/-- Modelled from the spec: `PGS_SEGMENT_TYPE_PDS` (Palette). -/
def PGS_SEGMENT_TYPE_PDS : Nat := 0x14
/-- Modelled from the spec: `PGS_SEGMENT_TYPE_ODS` (Object). -/
def PGS_SEGMENT_TYPE_ODS : Nat := 0x15
/-- Modelled from the spec: `PGS_SEGMENT_TYPE_PCS` (Composition). -/
def PGS_SEGMENT_TYPE_PCS : Nat := 0x16
/-- Modelled from the spec: `PGS_SEGMENT_TYPE_WDS` (Window). -/
def PGS_SEGMENT_TYPE_WDS : Nat := 0x17
/-- Modelled from the spec: `PGS_SEGMENT_TYPE_END` (End of display set). -/
def PGS_SEGMENT_TYPE_END : Nat := 0x80

/-! ## Data types (`src/bdsup/pgs_types.rs`) -/

/-- `SingleWindowDefinition` of `pgs_types.rs`. -/
structure SingleWindowDefinition where
  window_id : Nat
  horizontal_pos : Nat
  vertical_pos : Nat
  width : Nat
  height : Nat
deriving DecidableEq, Repr

/-- `PaletteEntry` of `pgs_types.rs`. -/
structure PaletteEntry where
  palette_entry_id : Nat
  luminance : Nat
  color_diff_red : Nat
  color_diff_blue : Nat
  transparency : Nat
deriving DecidableEq, Repr

/-- `PaletteDefinition` of `pgs_types.rs`. -/
structure PaletteDefinition where
  palette_id : Nat
  palette_version : Nat
  entries : List PaletteEntry
deriving DecidableEq, Repr

/-- `CompositionState` of `pgs_types.rs`. -/
inductive CompositionState where
  | Normal
  | AcquisitionPoint
  | EpochStart
deriving DecidableEq, Repr

/-- `CompositionObject` of `pgs_types.rs`. -/
structure CompositionObject where
  object_id : Nat
  window_id : Nat
  object_cropped_flag : Bool
  object_horizontal_pos : Nat
  object_vertical_pos : Nat
  object_cropping_horizontal_pos : Nat
  object_cropping_vertical_pos : Nat
  object_cropping_width : Nat
  object_cropping_height : Nat
deriving DecidableEq, Repr

/-- `PresentationComposition` of `pgs_types.rs`. -/
structure PresentationComposition where
  width : Nat
  height : Nat
  frame_rate : Nat
  composition_number : Nat
  composition_state : CompositionState
  palette_update_flag : Bool
  palette_id : Nat
  composition_objects : List CompositionObject
deriving DecidableEq, Repr

/-- `ObjectDefinition` of `pgs_types.rs`. The `last_in_sequence` bitflags
value is kept as the raw flag byte (bit 0x40 = first-in-sequence,
bit 0x80 = last-in-sequence), exactly the bits `bitflags!` stores. -/
structure ObjectDefinition where
  object_id : Nat
  object_version : Nat
  last_in_sequence : Nat
  width : Nat
  height : Nat
  rle_data : List Nat
deriving DecidableEq, Repr

/-- `LastInSequence::FIRST_IN_SEQUENCE = 0b01000000`. -/
def FIRST_IN_SEQUENCE : Nat := 0b01000000
/-- `LastInSequence::LAST_IN_SEQUENCE = 0b10000000`. -/
def LAST_IN_SEQUENCE : Nat := 0b10000000

/-- `LastInSequence::from_bits` (generated by `bitflags!`): `Some` exactly
when no bit outside the two declared flags is set. The input is a byte. -/
def LastInSequence.from_bits (b : Nat) : Option Nat :=
  if b &&& 0b00111111 = 0 then some b else none

/-- `LastInSequence::contains` (generated by `bitflags!`): all bits of
`mask` are set in `b`. -/
def LastInSequence.contains (b mask : Nat) : Bool :=
  b &&& mask == mask

/-- `PgsDisplaySet` of `pgs_types.rs`. -/
structure PgsDisplaySet where
  pcs : PresentationComposition
  wds : List SingleWindowDefinition
  pds : List PaletteDefinition
  ods : List ObjectDefinition
deriving DecidableEq, Repr

end Pgs

namespace Pgs

/-! ## Segment decoders (`src/bdsup/mod.rs`, `parse_pds` / `parse_ods` /
`parse_pcs` / `parse_wds`)

Each `reader.read_xx().ok_or(PgsError::FormatError)?` of the source becomes a
bind in the `Option` monad, with the single `match` at the end turning `none`
into `.err .FormatError`. -/

/-- The entry loop of `parse_pds`: `while let Some(palette_entry_id) =
data.read_u8()` read four more bytes, each with
`.ok_or(PgsError::FormatError)?` (`read_u8` is exactly "uncons", so the five
reads appear here as one five-cons pattern; a list of 1–4 bytes is a failed
follow-up read). -/
def parse_pds_entries : List Nat → POut (List PaletteEntry)
  | [] => .ok []
  | palette_entry_id :: luminance :: color_diff_red :: color_diff_blue ::
      transparency :: d4 =>
    match parse_pds_entries d4 with
    | .ok entries =>
      .ok ({ palette_entry_id, luminance, color_diff_red, color_diff_blue,
             transparency } :: entries)
    | .err e => .err e
    | .panic s => .panic s
  | _ => .err .FormatError

/-- `parse_pds` of `src/bdsup/mod.rs`. -/
def parse_pds (data : List Nat) : POut PaletteDefinition :=
  match read_u8 data with
  | none => .err .FormatError
  | some (palette_id, d0) =>
    match read_u8 d0 with
    | none => .err .FormatError
    | some (palette_version, d1) =>
      match parse_pds_entries d1 with
      | .ok entries => .ok { palette_id, palette_version, entries }
      | .err e => .err e
      | .panic s => .panic s

/-- `parse_ods` of `src/bdsup/mod.rs`. `u32::from_be_bytes([0, b0, b1, b2])
.saturating_sub(4)` is `b0*65536 + b1*256 + b2 - 4` with `Nat` (truncating)
subtraction, which is exactly saturating subtraction. -/
def parse_ods (data : List Nat) : POut ObjectDefinition :=
  match (do
    let (object_id, d0) ← read_u16 data
    let (object_version, d1) ← read_u8 d0
    let (last_in_sequence_flag, d2) ← read_u8 d1
    let (object_data_length_buf, d3) ← take_bytes 3 d2
    let object_data_length :=
      object_data_length_buf.getD 0 0 * 65536 + object_data_length_buf.getD 1 0 * 256 +
        object_data_length_buf.getD 2 0 - 4
    let (width, d4) ← read_u16 d3
    let (height, d5) ← read_u16 d4
    let (rle_data, _) ← take_bytes object_data_length d5
    let last_in_sequence ← LastInSequence.from_bits last_in_sequence_flag
    pure ({ object_id, object_version, last_in_sequence, width, height,
            rle_data } : ObjectDefinition) : Option ObjectDefinition) with
  | some od => .ok od
  | none => .err .FormatError

/-- The composition-object loop of `parse_pcs` (`for _ in
0..composition_object_len`); the crop fields are read only when the cropped
flag (top bit of the flag byte) is set, and are `0` otherwise. -/
def parse_pcs_objects : Nat → List Nat → Option (List CompositionObject)
  | 0, _ => some []
  | n + 1, d => do
    let (object_id, d0) ← read_u16 d
    let (window_id, d1) ← read_u8 d0
    let (cropped_byte, d2) ← read_u8 d1
    let object_cropped_flag := decide (0 < cropped_byte &&& 0x80)
    let (object_horizontal_pos, d3) ← read_u16 d2
    let (object_vertical_pos, d4) ← read_u16 d3
    let (object_cropping_horizontal_pos, d5) ←
      if object_cropped_flag then read_u16 d4 else some (0, d4)
    let (object_cropping_vertical_pos, d6) ←
      if object_cropped_flag then read_u16 d5 else some (0, d5)
    let (object_cropping_width, d7) ←
      if object_cropped_flag then read_u16 d6 else some (0, d6)
    let (object_cropping_height, d8) ←
      if object_cropped_flag then read_u16 d7 else some (0, d7)
    let rest ← parse_pcs_objects n d8
    pure (({ object_id, window_id, object_cropped_flag, object_horizontal_pos,
             object_vertical_pos, object_cropping_horizontal_pos,
             object_cropping_vertical_pos, object_cropping_width,
             object_cropping_height } : CompositionObject) :: rest)

/-- `parse_pcs` of `src/bdsup/mod.rs`. An unrecognized composition-state byte
hits `panic!("Invalid composition state")` in the source, embedded as
`.panic`. -/
def parse_pcs (data : List Nat) : POut PresentationComposition :=
  match (do
    let (width, d0) ← read_u16 data
    let (height, d1) ← read_u16 d0
    let (frame_rate, d2) ← read_u8 d1
    let (composition_number, d3) ← read_u16 d2
    let (state_byte, d4) ← read_u8 d3
    pure (width, height, frame_rate, composition_number, state_byte, d4) :
      Option (Nat × Nat × Nat × Nat × Nat × List Nat)) with
  | none => .err .FormatError
  | some (width, height, frame_rate, composition_number, state_byte, d4) =>
    match (match state_byte with
           | 0x00 => .ok CompositionState.Normal
           | 0x40 => .ok CompositionState.AcquisitionPoint
           | 0x80 => .ok CompositionState.EpochStart
           | _ => .panic "Invalid composition state" : POut CompositionState) with
    | .err e => .err e
    | .panic s => .panic s
    | .ok composition_state =>
      match (do
        let (update_byte, d5) ← read_u8 d4
        let (palette_id, d6) ← read_u8 d5
        let (composition_object_len, d7) ← read_u8 d6
        let composition_objects ← parse_pcs_objects composition_object_len d7
        pure ({ width, height, frame_rate, composition_number, composition_state,
                palette_update_flag := decide (0 < update_byte), palette_id,
                composition_objects } : PresentationComposition) :
          Option PresentationComposition) with
      | some pc => .ok pc
      | none => .err .FormatError

/-- The window loop of `parse_wds` (`for _ in 0..num_windows`). -/
def parse_wds_loop : Nat → List Nat → Option (List SingleWindowDefinition)
  | 0, _ => some []
  | n + 1, d => do
    let (window_id, d0) ← read_u8 d
    let (horizontal_pos, d1) ← read_u16 d0
    let (vertical_pos, d2) ← read_u16 d1
    let (width, d3) ← read_u16 d2
    let (height, d4) ← read_u16 d3
    let rest ← parse_wds_loop n d4
    pure (({ window_id, horizontal_pos, vertical_pos, width, height } :
      SingleWindowDefinition) :: rest)

/-- `parse_wds` of `src/bdsup/mod.rs`. -/
def parse_wds (data : List Nat) : POut (List SingleWindowDefinition) :=
  match (do
    let (num_windows, d0) ← read_u8 data
    parse_wds_loop num_windows d0 : Option (List SingleWindowDefinition)) with
  | some ws => .ok ws
  | none => .err .FormatError

end Pgs

namespace Pgs

/-! ## Display-set decoder loop (`read_display_set` of `src/bdsup/mod.rs`) -/

/-- The Object-segment branch of the `read_display_set` loop (lines 289–319
of `src/bdsup/mod.rs`): the object-reassembly state machine over the emitted
list `ods` and the pending partial object `current_ods`. -/
def ods_step (ods : List ObjectDefinition) (current_ods : Option ObjectDefinition)
    (this_ods : ObjectDefinition) : List ObjectDefinition × Option ObjectDefinition :=
  if LastInSequence.contains this_ods.last_in_sequence
      (FIRST_IN_SEQUENCE ||| LAST_IN_SEQUENCE) then
    match current_ods with
    | some old_ods => (ods ++ [old_ods, this_ods], none)
    | none => (ods ++ [this_ods], none)
  else if LastInSequence.contains this_ods.last_in_sequence FIRST_IN_SEQUENCE then
    match current_ods with
    | some old_ods => (ods ++ [old_ods], some this_ods)
    | none => (ods, some this_ods)
  else if LastInSequence.contains this_ods.last_in_sequence LAST_IN_SEQUENCE then
    match current_ods with
    | some cur => (ods ++ [{ cur with rle_data := cur.rle_data ++ this_ods.rle_data }], none)
    | none => (ods, none)
  else
    match current_ods with
    | some cur => (ods, some { cur with rle_data := cur.rle_data ++ this_ods.rle_data })
    | none => (ods, none)

/-- The segment loop of `read_display_set`. Each iteration reads the 1-byte
type code and 2-byte length (failure: `FormatError`), `panic!`s when the
declared length exceeds the remaining bytes, extracts the payload with
`take_bytes`, and dispatches on the type code; an unrecognized code hits
`panic!("Invalid segment type")`.

The `fuel` argument exists only to make the recursion structural (so that
concrete runs reduce definitionally): every iteration consumes at least 3
input bytes and exactly 1 fuel, so with the `data.length + 1` fuel supplied
by `read_display_set` the `fuel = 0` arm is unreachable
(`read_display_set_loop_fuel_irrelevant` below proves any fuel above
`data.length` gives the same result). -/
def read_display_set_loop (fuel : Nat) (pcs : Option PresentationComposition)
    (wds : List SingleWindowDefinition) (pds : List PaletteDefinition)
    (ods : List ObjectDefinition) (current_ods : Option ObjectDefinition)
    (data : List Nat) : POut PgsDisplaySet :=
  match fuel with
  | 0 => .panic "loop fuel exhausted (dead code: an iteration consumes 3 or more bytes)"
  | fuel + 1 =>
  match read_u8 data with
  | none => .err .FormatError
  | some (segment_type, d0) =>
    match read_u16 d0 with
    | none => .err .FormatError
    | some (segment_size, d1) =>
      if get_remaining_bytes d1 < segment_size then
        .panic "Segment length is greater than data length"
      else
        match take_bytes segment_size d1 with
        | none => .err .FormatError
        | some (seg, rest) =>
          if segment_type = PGS_SEGMENT_TYPE_PDS then
            match parse_pds seg with
            | .ok pd => read_display_set_loop fuel pcs wds (pds ++ [pd]) ods current_ods rest
            | .err e => .err e
            | .panic s => .panic s
          else if segment_type = PGS_SEGMENT_TYPE_ODS then
            match parse_ods seg with
            | .ok this_ods =>
              match ods_step ods current_ods this_ods with
              | (ods2, current2) => read_display_set_loop fuel pcs wds pds ods2 current2 rest
            | .err e => .err e
            | .panic s => .panic s
          else if segment_type = PGS_SEGMENT_TYPE_PCS then
            match parse_pcs seg with
            | .ok pc => read_display_set_loop fuel (some pc) wds pds ods current_ods rest
            | .err e => .err e
            | .panic s => .panic s
          else if segment_type = PGS_SEGMENT_TYPE_WDS then
            match parse_wds seg with
            | .ok ws => read_display_set_loop fuel pcs (wds ++ ws) pds ods current_ods rest
            | .err e => .err e
            | .panic s => .panic s
          else if segment_type = PGS_SEGMENT_TYPE_END then
            match pcs with
            | some pc => .ok { pcs := pc, wds, pds, ods }
            | none => .err .FormatError
          else
            .panic "Invalid segment type"
/-- `read_display_set` of `src/bdsup/mod.rs`: the loop starting from empty
accumulators (`pcs = None`, empty `wds`/`pds`/`ods`, no pending object). -/
def read_display_set (data : List Nat) : POut PgsDisplaySet :=
  read_display_set_loop (data.length + 1) none [] [] [] none data

end Pgs

namespace Pgs

/-! ## Image and window compositor (`src/bdsup/window_adapter.rs`)

`image::GrayAlphaImage` is a grayscale+alpha pixel buffer; we embed it as
its dimensions plus a pixel function. `GrayAlphaImage::new` zero-fills, so
every pixel starts as luminance 0 / alpha 0. `ImageBuffer::put_pixel` is only
ever called behind the adapter's bounds checks, so no out-of-bounds write
can occur. -/

/-- One grayscale+alpha pixel: `image::LumaA<u8>` (`luma = .0[0]`,
`alpha = .0[1]`). -/
structure LumaA where
  luma : Nat
  alpha : Nat
deriving DecidableEq, Repr

/-- `image::GrayAlphaImage`. -/
structure Image where
  width : Nat
  height : Nat
  pix : Nat → Nat → LumaA

/-- `image::GrayAlphaImage::new` — an all-zero (fully transparent) buffer. -/
def Image.new (w h : Nat) : Image :=
  { width := w, height := h, pix := fun _ _ => ⟨0, 0⟩ }

/-- `image::GrayAlphaImage::put_pixel` — update one pixel. -/
def Image.put_pixel (img : Image) (x y : Nat) (p : LumaA) : Image :=
  { img with pix := fun a b => if a = x ∧ b = y then p else img.pix a b }

/-- `ImageWindow` of `src/bdsup/window_adapter.rs`. The Rust struct borrows
the image mutably; here the image is a field threaded through the
operations. -/
structure ImageWindow where
  image : Image
  x_cursor : Nat
  y_cursor : Nat
  x : Nat
  y : Nat
  width : Nat
  height : Nat
  crop_origin : Option (Nat × Nat)

/-- `ImageWindow::with_window`. -/
def ImageWindow.with_window (image : Image) (x y width height : Nat) : ImageWindow :=
  { image, x_cursor := 0, y_cursor := 0, x, y, width, height, crop_origin := none }

/-- `ImageWindow::with_window_cropped`. -/
def ImageWindow.with_window_cropped (image : Image) (x y width height crop_x crop_y : Nat) :
    ImageWindow :=
  { image, x_cursor := 0, y_cursor := 0, x, y, width, height,
    crop_origin := some (crop_x, crop_y) }

/-- `ImageWindow::put_pixel` of `src/bdsup/window_adapter.rs`: crop test and
subtraction, window bounds check, placement offset, canvas bounds check,
then the write — skipped when the pixel's alpha is `0`. -/
def ImageWindow.put_pixel (w : ImageWindow) (x0 y0 : Nat) (pixel : LumaA) : ImageWindow :=
  match (match w.crop_origin with
         | some (crop_x, crop_y) =>
           if x0 < crop_x ∨ y0 < crop_y then none
           else some (x0 - crop_x, y0 - crop_y)
         | none => some (x0, y0) : Option (Nat × Nat)) with
  | none => w
  | some (x1, y1) =>
    if x1 ≥ w.width ∨ y1 ≥ w.height then w
    else
      let x2 := x1 + w.x
      let y2 := y1 + w.y
      if x2 ≥ w.image.width ∨ y2 ≥ w.image.height then w
      else if pixel.alpha ≠ 0 then
        { w with image := w.image.put_pixel x2 y2 pixel }
      else w

/-- `ImageWindow::push_pixel`: write at the cursor, then advance the
column. -/
def ImageWindow.push_pixel (w : ImageWindow) (pixel : LumaA) : ImageWindow :=
  let w2 := w.put_pixel w.x_cursor w.y_cursor pixel
  { w2 with x_cursor := w2.x_cursor + 1 }

/-- `ImageWindow::end_line`: reset the column, advance the row. -/
def ImageWindow.end_line (w : ImageWindow) : ImageWindow :=
  { w with x_cursor := 0, y_cursor := w.y_cursor + 1 }

/-! ## RLE bitmap renderer (`render_into_image` of `src/bdsup/mod.rs`)

The Rust function mutates the window through a `&mut` borrow and returns
`Result<(), PgsError>`; mutations performed before an error are visible to
the caller, so the embedding returns the final window state paired with the
outcome. The `unreachable!()` arm (the follower code is two bits, all four
values are matched) is embedded as `.panic`. -/

/-- `n` repetitions of `push_pixel` with one color (`for _ in 0..l`). -/
def push_pixels (w : ImageWindow) (color : LumaA) : Nat → ImageWindow
  | 0 => w
  | n + 1 => push_pixels (w.push_pixel color) color n

/-- The body of one iteration of the `render_into_image` loop, for a leader
byte already read: either the loop continues (`Sum.inl`: updated window and
remaining bytes) or it exits early (`Sum.inr`: the window and the `Err` —
or the `unreachable!()` — that ends the Rust loop). -/
def rle_step (image : ImageWindow) (palette_id composition_number : Nat)
    (palette : Nat → Option LumaA) (leader : Nat) (d0 : List Nat) :
    (ImageWindow × List Nat) ⊕ (ImageWindow × POut Unit) :=
  if leader = 0 then
    match d0 with
    | [] => Sum.inr (image, .err .RleFormatError)
    | follower :: d1 =>
      let image := if follower = 0 then image.end_line else image
      let follower_code := follower &&& 0b11000000
      let follower_value := follower &&& 0b00111111
      if follower_code = 0b00000000 then
        Sum.inl (push_pixels image ⟨0, 0⟩ follower_value, d1)
      else if follower_code = 0b01000000 then
        match d1 with
        | [] => Sum.inr (image, .err .RleFormatError)
        | l_cont :: d2 =>
          Sum.inl (push_pixels image ⟨0, 0⟩ (follower_value * 256 + l_cont), d2)
      else if follower_code = 0b10000000 then
        match d1 with
        | [] => Sum.inr (image, .err .RleFormatError)
        | c :: d2 =>
          match palette c with
          | none => Sum.inr (image, .err (.MissingColor c palette_id composition_number))
          | some color => Sum.inl (push_pixels image color follower_value, d2)
      else if follower_code = 0b11000000 then
        match d1 with
        | [] => Sum.inr (image, .err .RleFormatError)
        | [_] => Sum.inr (image, .err .RleFormatError)
        | l_cont :: c :: d3 =>
          match palette c with
          | none => Sum.inr (image, .err (.MissingColor c palette_id composition_number))
          | some color =>
            Sum.inl (push_pixels image color (follower_value * 256 + l_cont), d3)
      else
        Sum.inr (image, .panic "internal error: entered unreachable code")
  else
    match palette leader with
    | none => Sum.inr (image, .err (.MissingColor leader palette_id composition_number))
    | some color => Sum.inl (image.push_pixel color, d0)

/-- The `while let Some(leader) = data.read_u8()` loop of
`render_into_image`: read a leader byte and run `rle_step` until the bytes
are exhausted or the step exits early. As in `read_display_set_loop`, `fuel`
only makes the recursion structural: every iteration consumes the leader
byte, so the `data.length + 1` fuel supplied by `render_into_image` never
runs out (`render_loop_fuel_irrelevant` below). -/
def render_loop (fuel : Nat) (image : ImageWindow) (palette_id composition_number : Nat)
    (palette : Nat → Option LumaA) (data : List Nat) : ImageWindow × POut Unit :=
  match fuel with
  | 0 => (image, .panic "loop fuel exhausted (dead code: an iteration consumes a byte)")
  | fuel + 1 =>
    match data with
    | [] => (image, .ok ())
    | leader :: d0 =>
      match rle_step image palette_id composition_number palette leader d0 with
      | Sum.inr result => result
      | Sum.inl (image2, rest) =>
        render_loop fuel image2 palette_id composition_number palette rest

/-- `render_into_image` of `src/bdsup/mod.rs`. The Rust function mutates the
window through a `&mut` borrow and returns `Result<(), PgsError>`; mutations
made before an error are visible to the caller, so the embedding returns the
final window state paired with the outcome. -/
def render_into_image (image : ImageWindow) (palette_id composition_number : Nat)
    (palette : Nat → Option LumaA) (data : List Nat) : ImageWindow × POut Unit :=
  render_loop (data.length + 1) image palette_id composition_number palette data

end Pgs

namespace Pgs

/-! ## Decoder state (`PgsParser` of `src/bdsup/mod.rs`)

The three `HashMap`s are embedded as partial functions on their key; the
source never iterates a map, only keys it, so this captures its behavior
exactly. -/

/-- A `HashMap<uN, α>` keyed lookup table. -/
def Table (α : Type) : Type := Nat → Option α

/-- `HashMap::new` / `HashMap::clear` — the empty table. -/
def Table.empty : Table α := fun _ => none

/-- `HashMap::insert` — upsert one key. -/
def Table.insert (m : Table α) (k : Nat) (v : α) : Table α :=
  fun q => if q = k then some v else m q

/-- The palette-merge loop of `process_mkv_frame` (lines 170–186 of
`src/bdsup/mod.rs`): fetch (or create empty) the stored palette for this
`palette_id`, then insert every entry as `LumaA([luminance, transparency])`. -/
def upsert_palette (tbl : Table (Table LumaA)) (palette : PaletteDefinition) :
    Table (Table LumaA) :=
  let stored : Table LumaA :=
    match tbl palette.palette_id with
    | some p => p
    | none => Table.empty
  let stored := palette.entries.foldl
    (fun acc entry =>
      Table.insert acc entry.palette_entry_id ⟨entry.luminance, entry.transparency⟩)
    stored
  Table.insert tbl palette.palette_id stored

/-- `PgsParser` of `src/bdsup/mod.rs`. -/
structure PgsParser where
  running_pcs : Option PresentationComposition
  window_table : Table SingleWindowDefinition
  palette_table : Table (Table LumaA)
  object_table : Table ObjectDefinition

/-- `PgsParser::new` (= `PgsParser::default()`). -/
def PgsParser.new : PgsParser :=
  { running_pcs := none, window_table := Table.empty,
    palette_table := Table.empty, object_table := Table.empty }

/-- The state-mutation part of `PgsParser::process_mkv_frame` (lines
161–207): epoch clearing, the three cache upserts, and the
running-composition update. -/
def update_state (p : PgsParser) (ds : PgsDisplaySet) : PgsParser :=
  let p :=
    if ds.pcs.composition_state = CompositionState.EpochStart then
      { p with window_table := Table.empty, palette_table := Table.empty,
               object_table := Table.empty }
    else p
  let palette_table := ds.pds.foldl upsert_palette p.palette_table
  let window_table :=
    ds.wds.foldl (fun t w => Table.insert t w.window_id w) p.window_table
  let object_table :=
    ds.ods.foldl (fun t o => Table.insert t o.object_id o) p.object_table
  let running_pcs :=
    match ds.pcs.composition_state with
    | CompositionState.AcquisitionPoint =>
      match p.running_pcs with
      | some running_pcs =>
        some { running_pcs with
               composition_number := ds.pcs.composition_number,
               composition_objects :=
                 running_pcs.composition_objects ++ ds.pcs.composition_objects }
      | none => none
    | CompositionState.EpochStart | CompositionState.Normal => some ds.pcs
  { running_pcs, window_table, palette_table, object_table }

/-- The composition-object render loop of `PgsParser::process_mkv_frame`
(lines 219–260): resolve the object and window records (each absence is a
typed error propagated with `?`), build the compositor window, and run
`render_into_image`. The source DISCARDS the `Result` of `render_into_image`
(statement at lines 253–259 carries no `?`), so a `MissingColor` /
`RleFormatError` from rendering does not stop the loop or fail the frame;
only a panic would propagate. The window's mutations up to the error remain
in the canvas. -/
def render_objects (palette_id composition_number : Nat) (palette : Table LumaA)
    (object_table : Table ObjectDefinition) (window_table : Table SingleWindowDefinition)
    (image : Image) : List CompositionObject → POut Image
  | [] => .ok image
  | object :: rest =>
    match object_table object.object_id with
    | none => .err (.MissingObject object.object_id composition_number)
    | some object_def =>
      match window_table object.window_id with
      | none => .err (.MissingWindow object.window_id composition_number)
      | some window_def =>
        let image_window :=
          if object.object_cropped_flag then
            ImageWindow.with_window_cropped image
              (window_def.horizontal_pos + object.object_horizontal_pos)
              (window_def.vertical_pos + object.object_vertical_pos)
              object.object_cropping_width object.object_cropping_height
              object.object_cropping_horizontal_pos object.object_cropping_vertical_pos
          else
            ImageWindow.with_window image
              (window_def.horizontal_pos + object.object_horizontal_pos)
              (window_def.vertical_pos + object.object_vertical_pos)
              window_def.width window_def.height
        match render_into_image image_window palette_id composition_number palette
            object_def.rle_data with
        | (_, .panic s) => .panic s
        | (w2, _) =>
          render_objects palette_id composition_number palette object_table
            window_table w2.image rest

/-- The render step of `PgsParser::process_mkv_frame` (lines 210–264): if a
running composition exists, allocate the canvas, resolve the active palette
(absence: `MissingPalette`), and draw every composition object in list
order; otherwise produce no image. -/
def render_pcs (p : PgsParser) : POut (Option Image) :=
  match p.running_pcs with
  | some pcs =>
    let image := Image.new pcs.width pcs.height
    match p.palette_table pcs.palette_id with
    | none => .err (.MissingPalette pcs.palette_id pcs.composition_number)
    | some palette =>
      match render_objects pcs.palette_id pcs.composition_number palette
          p.object_table p.window_table image pcs.composition_objects with
      | .ok img => .ok (some img)
      | .err e => .err e
      | .panic s => .panic s
  | none => .ok none

/-- `PgsParser::process_mkv_frame` applied to an already-parsed Display Set:
state mutation followed by the render step; the returned pair is (state
after the call, returned `Result`). -/
def apply_display_set (p : PgsParser) (ds : PgsDisplaySet) :
    PgsParser × POut (Option Image) :=
  let p2 := update_state p ds
  (p2, render_pcs p2)

/-- `PgsParser::process_mkv_frame` of `src/bdsup/mod.rs` over the raw frame
payload (`frame.data`): parse the display set (an early error leaves the
state untouched), then apply it. -/
def process_mkv_frame (p : PgsParser) (frame_data : List Nat) :
    PgsParser × POut (Option Image) :=
  match read_display_set frame_data with
  | .ok ds => apply_display_set p ds
  | .err e => (p, .err e)
  | .panic s => (p, .panic s)

end Pgs

namespace Pgs

/-! ## Claim-statement apparatus

`RasterOp`/`runOps` only name finite sequences of the two cursor-moving
calls of `ImageWindow`, so that "the raster position depends only on the
sequence of prior `push_pixel`/`end_line` calls" can be stated; they add no
behavior of their own. The remaining definitions are concrete fixtures used
by witness and counterexample theorems. -/

/-- One call against an `ImageWindow`: a `push_pixel` with some pixel, or an
`end_line`. -/
inductive RasterOp where
  | push (px : LumaA)
  | endLine
deriving Repr

/-- Replays a sequence of `push_pixel`/`end_line` calls on a window. -/
def runOps (w : ImageWindow) : List RasterOp → ImageWindow
  | [] => w
  | RasterOp.push px :: ops => runOps (w.push_pixel px) ops
  | RasterOp.endLine :: ops => runOps w.end_line ops

/-- Fixture: an uncropped composition object at a given position. -/
def mkCompObj (oid wid hp vp : Nat) : CompositionObject :=
  { object_id := oid, window_id := wid, object_cropped_flag := false,
    object_horizontal_pos := hp, object_vertical_pos := vp,
    object_cropping_horizontal_pos := 0, object_cropping_vertical_pos := 0,
    object_cropping_width := 0, object_cropping_height := 0 }

/-- Fixture: a presentation composition with the given state, number,
palette id and objects, on an 8×8 canvas. -/
def mkPcs (st : CompositionState) (cn pid : Nat) (objs : List CompositionObject) :
    PresentationComposition :=
  { width := 8, height := 8, frame_rate := 0, composition_number := cn,
    composition_state := st, palette_update_flag := false, palette_id := pid,
    composition_objects := objs }

/-- Fixture for C4: an AcquisitionPoint display set carrying one composition
object, processed while no running composition exists. -/
def dsAcq : PgsDisplaySet :=
  { pcs := mkPcs CompositionState.AcquisitionPoint 7 0 [mkCompObj 1 1 0 0],
    wds := [], pds := [], ods := [] }

/-- Fixture for C4's amended claim: an EpochStart display set. -/
def dsEpoch : PgsDisplaySet :=
  { pcs := mkPcs CompositionState.EpochStart 3 0 [], wds := [], pds := [], ods := [] }

/-- Fixture for C2: a decoder state holding palette 3, window 4 and object 5
in its caches before the epoch boundary. -/
def pW : PgsParser :=
  { running_pcs := none,
    window_table := Table.insert Table.empty 4
      { window_id := 4, horizontal_pos := 0, vertical_pos := 0, width := 8, height := 8 },
    palette_table := Table.insert Table.empty 3 (Table.insert Table.empty 1 ⟨10, 20⟩),
    object_table := Table.insert Table.empty 5
      { object_id := 5, object_version := 0, last_in_sequence := 0xC0, width := 1,
        height := 1, rle_data := [] } }

/-- Fixture for C2: an EpochStart display set that re-adds nothing. -/
def dsW : PgsDisplaySet :=
  { pcs := mkPcs CompositionState.EpochStart 8 3 [], wds := [], pds := [], ods := [] }

/-- Fixture for C2: a subsequent Normal display set whose composition still
references pre-epoch palette 3. -/
def dsN : PgsDisplaySet :=
  { pcs := mkPcs CompositionState.Normal 9 3 [], wds := [], pds := [], ods := [] }

/-- Fixture for C3: composition objects A, B (already running) and C (newly
acquired). -/
def coA : CompositionObject := mkCompObj 1 1 0 0
/-- Fixture for C3 (see `coA`). -/
def coB : CompositionObject := mkCompObj 2 1 1 0
/-- Fixture for C3 (see `coA`). -/
def coC : CompositionObject := mkCompObj 3 1 2 0

/-- Fixture for C3: a decoder state whose running composition has objects
`[A, B]` and composition_number 5. -/
def p3 : PgsParser :=
  { running_pcs := some (mkPcs CompositionState.Normal 5 0 [coA, coB]),
    window_table := Table.empty, palette_table := Table.empty,
    object_table := Table.empty }

/-- Fixture for C3: an AcquisitionPoint display set with objects `[C]` and
composition_number 6. -/
def ds3 : PgsDisplaySet :=
  { pcs := mkPcs CompositionState.AcquisitionPoint 6 0 [coC],
    wds := [], pds := [], ods := [] }

/-- Fixture for C5: one frame = PCS (EpochStart, 4×2 canvas, composition 1,
palette 0, one object), WDS (window 0 at (0,0), 4×2), PDS (palette 0 with
only color 1), ODS (object 0, single segment, RLE `[7]` — a literal pixel in
color 7, which the palette lacks), END. -/
def c5frame : List Nat :=
  [0x16, 0, 19,  0, 4, 0, 2, 0, 0, 1, 0x80, 0, 0, 1, 0, 0, 0, 0, 0, 0, 0, 0] ++
  [0x17, 0, 10,  1, 0, 0, 0, 0, 0, 0, 4, 0, 2] ++
  [0x14, 0, 7,   0, 0, 1, 200, 0, 0, 255] ++
  [0x15, 0, 12,  0, 0, 0, 0xC0, 0, 0, 5, 0, 4, 0, 2, 7] ++
  [0x80, 0, 0]

/-- Fixture for C5: the composition object of `c5frame`. -/
def c5co : CompositionObject := mkCompObj 0 0 0 0

/-- Fixture for C5: the object definition parsed from `c5frame`'s ODS. -/
def c5od : ObjectDefinition :=
  { object_id := 0, object_version := 0, last_in_sequence := 0xC0,
    width := 4, height := 2, rle_data := [7] }

/-- Fixture for C5: the display set parsed from `c5frame`. -/
def c5ds : PgsDisplaySet :=
  { pcs := { width := 4, height := 2, frame_rate := 0, composition_number := 1,
             composition_state := CompositionState.EpochStart,
             palette_update_flag := false, palette_id := 0,
             composition_objects := [c5co] },
    wds := [{ window_id := 0, horizontal_pos := 0, vertical_pos := 0, width := 4,
              height := 2 }],
    pds := [{ palette_id := 0, palette_version := 0,
              entries := [{ palette_entry_id := 1, luminance := 200,
                            color_diff_red := 0, color_diff_blue := 0,
                            transparency := 255 }] }],
    ods := [c5od] }

/-- Fixture for C5: the active palette after `c5frame`'s cache update — color
1 only. -/
def c5palette : Table LumaA := Table.insert Table.empty 1 ⟨200, 255⟩

/-- Fixture for C6: a single Object segment flagged first+last. -/
def oBoth : ObjectDefinition :=
  { object_id := 9, object_version := 0, last_in_sequence := 0xC0,
    width := 2, height := 1, rle_data := [1, 2] }
/-- Fixture for C6: first-in-sequence fragment. -/
def oFirst : ObjectDefinition :=
  { object_id := 9, object_version := 0, last_in_sequence := 0x40,
    width := 2, height := 1, rle_data := [1, 2] }
/-- Fixture for C6: middle fragment (no flags). -/
def oMid : ObjectDefinition :=
  { object_id := 9, object_version := 0, last_in_sequence := 0,
    width := 2, height := 1, rle_data := [3] }
/-- Fixture for C6: last-in-sequence fragment. -/
def oLast : ObjectDefinition :=
  { object_id := 9, object_version := 0, last_in_sequence := 0x80,
    width := 2, height := 1, rle_data := [4, 5] }

/-- Fixture for C7: a window with crop origin (2,3), placed at (1,1) on a
6×6 canvas. -/
def wCrop : ImageWindow := ImageWindow.with_window_cropped (Image.new 6 6) 1 1 4 4 2 3

/-- Fixture for C7/C10: an uncropped 4×4 window at (1,1) on a 6×6 canvas. -/
def wPlain : ImageWindow := ImageWindow.with_window (Image.new 6 6) 1 1 4 4

/-- Fixture for C10: a window differing from `wPlain` in image, placement,
size and crop, but with the same (0,0) cursor. -/
def wOther : ImageWindow := ImageWindow.with_window_cropped (Image.new 2 9) 0 3 1 2 5 0

/-- Fixture for C9: an Object-segment payload whose declared total-object-data
length is 5 (so 5−4 = 1 byte of bitmap data) but which carries two bytes
after the height field. -/
def c9payload : List Nat := [0, 1, 2, 0xC0, 0, 0, 5, 0, 4, 0, 2, 0xAA, 0xBB]

/-- Fixture for C9: what `parse_ods` actually returns on `c9payload`. -/
def c9od : ObjectDefinition :=
  { object_id := 1, object_version := 2, last_in_sequence := 0xC0,
    width := 4, height := 2, rle_data := [0xAA] }

end Pgs

namespace Pgs

/-! ## Supporting lemmas -/

theorem read_display_set_loop_fuel_irrelevant :
    ∀ f1 : Nat, ∀ (f2 : Nat) (pcs : Option PresentationComposition)
      (wds : List SingleWindowDefinition) (pds : List PaletteDefinition)
      (ods : List ObjectDefinition) (cur : Option ObjectDefinition) (data : List Nat),
      data.length < f1 → data.length < f2 →
      read_display_set_loop f1 pcs wds pds ods cur data =
        read_display_set_loop f2 pcs wds pds ods cur data := by
  intro f1
  induction f1 with
  | zero =>
    intro f2 pcs wds pds ods cur data h1 h2
    omega
  | succ f ih =>
    intro f2 pcs wds pds ods cur data h1 h2
    cases f2 with
    | zero => omega
    | succ g =>
      rcases data with - | ⟨t, - | ⟨s0, - | ⟨s1, rest⟩⟩⟩
      · simp [read_display_set_loop, read_u8]
      · simp [read_display_set_loop, read_u8, read_u16]
      · simp [read_display_set_loop, read_u8, read_u16]
      · simp only [read_display_set_loop, read_u8, read_u16]
        by_cases hlt : get_remaining_bytes rest < s0 * 256 + s1
        · simp only [hlt, if_true, reduceIte]
        · have htb : take_bytes (s0 * 256 + s1) rest =
              some (rest.take (s0 * 256 + s1), rest.drop (s0 * 256 + s1)) := by
            unfold take_bytes
            rw [if_pos]
            unfold get_remaining_bytes at hlt
            omega
          have hlen : (rest.drop (s0 * 256 + s1)).length < f ∧
              (rest.drop (s0 * 256 + s1)).length < g := by
            simp only [List.length_drop, List.length_cons] at *
            omega
          simp only [hlt, reduceIte, htb]
          split
          · cases parse_pds (rest.take (s0 * 256 + s1)) <;>
              simp [ih _ _ _ _ _ _ _ hlen.1 hlen.2]
          · split
            · cases parse_ods (rest.take (s0 * 256 + s1)) <;>
                simp [ih _ _ _ _ _ _ _ hlen.1 hlen.2]
            · split
              · cases parse_pcs (rest.take (s0 * 256 + s1)) <;>
                  simp [ih _ _ _ _ _ _ _ hlen.1 hlen.2]
              · split
                · cases parse_wds (rest.take (s0 * 256 + s1)) <;>
                    simp [ih _ _ _ _ _ _ _ hlen.1 hlen.2]
                · rfl

theorem rle_step_inl_length {image : ImageWindow} {pid cn : Nat}
    {pal : Nat → Option LumaA} {leader : Nat} {d0 : List Nat}
    {img2 : ImageWindow} {rest : List Nat}
    (h : rle_step image pid cn pal leader d0 = Sum.inl (img2, rest)) :
    rest.length ≤ d0.length := by
  unfold rle_step at h
  split at h
  · rcases d0 with - | ⟨follower, d1⟩
    · simp at h
    · simp only [] at h
      repeat' split at h
      all_goals simp_all
      all_goals omega
  · split at h
    · simp at h
    · simp only [Sum.inl.injEq, Prod.mk.injEq] at h
      obtain ⟨-, rfl⟩ := h
      exact Nat.le_refl _

theorem render_loop_fuel_irrelevant :
    ∀ f1 : Nat, ∀ (f2 : Nat) (image : ImageWindow) (pid cn : Nat)
      (pal : Nat → Option LumaA) (data : List Nat),
      data.length < f1 → data.length < f2 →
      render_loop f1 image pid cn pal data = render_loop f2 image pid cn pal data := by
  intro f1
  induction f1 with
  | zero =>
    intro f2 image pid cn pal data h1 h2
    omega
  | succ f ih =>
    intro f2 image pid cn pal data h1 h2
    cases f2 with
    | zero => omega
    | succ g =>
      rcases data with - | ⟨leader, d0⟩
      · simp [render_loop]
      · simp only [render_loop]
        cases hstep : rle_step image pid cn pal leader d0 with
        | inr r => rfl
        | inl pr =>
          obtain ⟨img2, rest⟩ := pr
          have hle := rle_step_inl_length hstep
          simp only [List.length_cons] at h1 h2
          exact ih g img2 pid cn pal rest (by omega) (by omega)

/-! ## Claims -/


/-- C1: the claim says every malformed frame — over-length segment payload,
unrecognized segment type code, unrecognized composition-state byte — yields
a typed format error and decoding never aborts the process. The code instead
`panic!`s at all three sites (`src/bdsup/mod.rs` lines 279, 335 and 400),
exactly the "unrecoverable fault on malformed input" the spec's §9 orders
re-architected. This theorem evaluates the code at the three failing
inputs. -/
theorem claim_C1_panics :
    read_display_set [0x14, 0x00, 0x01] =
      POut.panic "Segment length is greater than data length" ∧
    read_display_set [0x13, 0x00, 0x00] = POut.panic "Invalid segment type" ∧
    parse_pcs [0, 4, 0, 2, 0, 0, 1, 0x41] = POut.panic "Invalid composition state" :=
  ⟨rfl, rfl, rfl⟩

/-- C3: on an AcquisitionPoint Display Set with an existing running
composition, the running composition keeps all its fields except that its
composition_number becomes the new one and the new Display Set's composition
objects are appended to its object list. -/
theorem claim_C3_acquisition_appends (p : PgsParser) (ds : PgsDisplaySet)
    (rp : PresentationComposition)
    (h1 : p.running_pcs = some rp)
    (h2 : ds.pcs.composition_state = CompositionState.AcquisitionPoint) :
    (update_state p ds).running_pcs =
      some { rp with
              composition_number := ds.pcs.composition_number,
              composition_objects :=
                rp.composition_objects ++ ds.pcs.composition_objects } := by
  simp [update_state, h1, h2]

/-- C3 witness: running composition `[A, B]` with number 5, AcquisitionPoint
Display Set `[C]` with number 6, result: number 6, objects `[A, B, C]`. -/
theorem claim_C3_acquisition_appends_witness :
    p3.running_pcs = some (mkPcs CompositionState.Normal 5 0 [coA, coB]) ∧
    ds3.pcs.composition_state = CompositionState.AcquisitionPoint ∧
    (update_state p3 ds3).running_pcs =
      some { width := 8, height := 8, frame_rate := 0, composition_number := 6,
             composition_state := CompositionState.Normal,
             palette_update_flag := false, palette_id := 0,
             composition_objects := [coA, coB, coC] } := by
  refine ⟨rfl, rfl, ?_⟩
  simpa [mkPcs, ds3] using
    claim_C3_acquisition_appends p3 ds3 (mkPcs CompositionState.Normal 5 0 [coA, coB])
      rfl rfl

/-- C4 counterexample: the claim says that whenever no running composition
exists yet, the running composition is replaced with the Display Set's
composition regardless of state, including AcquisitionPoint. On
`dsAcq` (AcquisitionPoint) from the fresh state the code leaves the running
composition absent instead of storing `dsAcq.pcs`. -/
theorem claim_C4_counterexample :
    PgsParser.new.running_pcs = none ∧
    dsAcq.pcs.composition_state = CompositionState.AcquisitionPoint ∧
    (update_state PgsParser.new dsAcq).running_pcs ≠ some dsAcq.pcs :=
  ⟨rfl, rfl, by decide⟩

/-- C4 as amended: on EpochStart or Normal the running composition is
replaced wholesale with the Display Set's composition; on AcquisitionPoint
with no existing running composition the Display Set's composition is
discarded and the running composition remains absent. -/
theorem claim_C4_amended (p : PgsParser) (ds : PgsDisplaySet) :
    ((ds.pcs.composition_state = CompositionState.EpochStart ∨
      ds.pcs.composition_state = CompositionState.Normal) →
      (update_state p ds).running_pcs = some ds.pcs) ∧
    (ds.pcs.composition_state = CompositionState.AcquisitionPoint →
      p.running_pcs = none →
      (update_state p ds).running_pcs = none) := by
  constructor
  · rintro (h | h) <;> simp [update_state, h]
  · intro h h2
    simp [update_state, h, h2]

/-- C4 amended witness: EpochStart replaces; AcquisitionPoint from the fresh
state leaves the running composition absent. -/
theorem claim_C4_amended_witness :
    (update_state PgsParser.new dsEpoch).running_pcs = some dsEpoch.pcs ∧
    (update_state PgsParser.new dsAcq).running_pcs = none :=
  ⟨(claim_C4_amended PgsParser.new dsEpoch).1 (Or.inl rfl),
   (claim_C4_amended PgsParser.new dsAcq).2 rfl rfl⟩

/-- C8: a `0x00` leader followed by a `0x00` follower resets the column
cursor to 0 and advances the row by one (`end_line`), pushes no pixels
(the canvas is untouched), and decoding then continues with the remaining
bytes — the zero-length run of that same follower byte is still decoded, in
addition to the end-of-line action. -/
theorem claim_C8_eol_escape (w : ImageWindow) (palette_id composition_number : Nat)
    (palette : Table LumaA) (rest : List Nat) :
    render_into_image w palette_id composition_number palette (0 :: 0 :: rest) =
      render_into_image w.end_line palette_id composition_number palette rest ∧
    w.end_line.x_cursor = 0 ∧
    w.end_line.y_cursor = w.y_cursor + 1 ∧
    w.end_line.image = w.image := by
  refine ⟨?_, rfl, rfl, rfl⟩
  show render_loop ((0 :: 0 :: rest).length + 1) w palette_id composition_number
      palette (0 :: 0 :: rest) =
    render_loop (rest.length + 1) w.end_line palette_id composition_number palette rest
  have h1 : render_loop ((0 :: 0 :: rest).length + 1) w palette_id composition_number
      palette (0 :: 0 :: rest) =
      render_loop (rest.length + 2) w.end_line palette_id composition_number
        palette rest := by
    simp only [List.length_cons, render_loop]
    rw [show rle_step w palette_id composition_number palette 0 (0 :: rest) =
        Sum.inl (w.end_line, rest) from rfl]
  rw [h1]
  exact render_loop_fuel_irrelevant (rest.length + 2) (rest.length + 1) w.end_line
    palette_id composition_number palette rest (by omega) (by omega)

/-- C9 counterexample: the claim says the recorded `rle_data` equals all of
the segment's payload bytes after the height field. On `c9payload` (declared
total-object-data length 5, two trailing bytes) parsing succeeds but records
only the first `5 − 4 = 1` byte, not the 2 remaining bytes. -/
theorem claim_C9_counterexample :
    parse_ods c9payload = POut.ok c9od ∧ c9od.rle_data ≠ c9payload.drop 11 :=
  ⟨rfl, by decide⟩

/-- C9 as amended: `parse_ods` reads object_id, version, the sequence-flag
byte (which must carry no bits outside 0x40/0x80), the 3-byte big-endian
total-object-data length from which 4 is subtracted (saturating), width and
height, and then takes exactly that many of the remaining payload bytes as
the bitmap chunk: when at least that many bytes remain, parsing succeeds and
`rle_data` equals the first `declared − 4` bytes after the height field (not
necessarily all of them). -/
theorem claim_C9_amended (i1 i2 v fl l1 l2 l3 w1 w2 h1 h2 : Nat) (rest : List Nat)
    (hfl : fl = 0 ∨ fl = 0x40 ∨ fl = 0x80 ∨ fl = 0xC0)
    (hlen : l1 * 65536 + l2 * 256 + l3 - 4 ≤ rest.length) :
    parse_ods ([i1, i2, v, fl, l1, l2, l3, w1, w2, h1, h2] ++ rest) =
      POut.ok { object_id := i1 * 256 + i2, object_version := v,
                last_in_sequence := fl, width := w1 * 256 + w2,
                height := h1 * 256 + h2,
                rle_data := rest.take (l1 * 65536 + l2 * 256 + l3 - 4) } := by
  have hbits : fl &&& 0b00111111 = 0 := by
    rcases hfl with rfl | rfl | rfl | rfl <;> rfl
  have hlen4 : l1 * 65536 + l2 * 256 + l3 ≤ rest.length + 4 := by omega
  simp [parse_ods, read_u8, read_u16, take_bytes, LastInSequence.from_bits, hbits,
    hlen, hlen4]

/-- C9 amended witness: declared length 6, three trailing bytes, recorded
bitmap chunk = the first two of them. -/
theorem claim_C9_amended_witness :
    ((0xC0 = 0 ∨ 0xC0 = 0x40 ∨ 0xC0 = 0x80 ∨ (0xC0 : Nat) = 0xC0) ∧
      0 * 65536 + 0 * 256 + 6 - 4 ≤ ([0x11, 0x22, 0x33] : List Nat).length) ∧
    parse_ods [0, 2, 1, 0xC0, 0, 0, 6, 0, 3, 0, 1, 0x11, 0x22, 0x33] =
      POut.ok { object_id := 2, object_version := 1, last_in_sequence := 0xC0,
                width := 3, height := 1, rle_data := [0x11, 0x22] } :=
  ⟨⟨by decide, by decide⟩,
   claim_C9_amended 0 2 1 0xC0 0 0 6 0 3 0 1 [0x11, 0x22, 0x33]
     (by decide) (by decide)⟩

end Pgs

namespace Pgs

theorem put_pixel_x_cursor (w : ImageWindow) (x y : Nat) (px : LumaA) :
    (w.put_pixel x y px).x_cursor = w.x_cursor := by
  unfold ImageWindow.put_pixel
  split
  · rfl
  · try dsimp only []
    split_ifs <;> rfl

theorem put_pixel_y_cursor (w : ImageWindow) (x y : Nat) (px : LumaA) :
    (w.put_pixel x y px).y_cursor = w.y_cursor := by
  unfold ImageWindow.put_pixel
  split
  · rfl
  · try dsimp only []
    split_ifs <;> rfl

theorem runOps_cursor :
    ∀ (ops : List RasterOp) (w w2 : ImageWindow),
      w2.x_cursor = w.x_cursor → w2.y_cursor = w.y_cursor →
      (runOps w ops).x_cursor = (runOps w2 ops).x_cursor ∧
      (runOps w ops).y_cursor = (runOps w2 ops).y_cursor := by
  intro ops
  induction ops with
  | nil =>
    intro w w2 h1 h2
    simp [runOps, h1, h2]
  | cons op ops ih =>
    intro w w2 h1 h2
    cases op with
    | push px =>
      refine ih (w.push_pixel px) (w2.push_pixel px) ?_ ?_
      · simp [ImageWindow.push_pixel, put_pixel_x_cursor, h1]
      · simp [ImageWindow.push_pixel, put_pixel_y_cursor, h2]
    | endLine =>
      refine ih w.end_line w2.end_line ?_ ?_ <;> simp [ImageWindow.end_line, h2]

/-- C10: `push_pixel` always advances the column by exactly 1 and keeps the
row (whether or not the pixel is written), `end_line` always resets the
column and advances the row, and consequently the raster cursor after any
sequence of calls depends only on that sequence and the starting cursor,
never on the window's image, placement, size or crop. -/
theorem claim_C10_cursor (w : ImageWindow) (px : LumaA) :
    ((w.push_pixel px).x_cursor = w.x_cursor + 1 ∧
     (w.push_pixel px).y_cursor = w.y_cursor ∧
     w.end_line.x_cursor = 0 ∧
     w.end_line.y_cursor = w.y_cursor + 1) ∧
    (∀ (ops : List RasterOp) (w2 : ImageWindow),
      w2.x_cursor = w.x_cursor → w2.y_cursor = w.y_cursor →
      (runOps w ops).x_cursor = (runOps w2 ops).x_cursor ∧
      (runOps w ops).y_cursor = (runOps w2 ops).y_cursor) := by
  refine ⟨⟨?_, ?_, rfl, rfl⟩, ?_⟩
  · simp [ImageWindow.push_pixel, put_pixel_x_cursor]
  · simp [ImageWindow.push_pixel, put_pixel_y_cursor]
  · intro ops w2 h1 h2
    exact runOps_cursor ops w w2 h1 h2

/-- C10 witness: `wPlain` and `wOther` share only the (0,0) start cursor;
after the same call sequence their cursors agree, and one `push_pixel` from
the start advances the column to 1. -/
theorem claim_C10_cursor_witness :
    (wPlain.push_pixel ⟨3, 4⟩).x_cursor = 1 ∧
    (runOps wPlain [RasterOp.push ⟨3, 4⟩, RasterOp.endLine, RasterOp.push ⟨3, 0⟩]).x_cursor =
      (runOps wOther [RasterOp.push ⟨3, 4⟩, RasterOp.endLine, RasterOp.push ⟨3, 0⟩]).x_cursor :=
  ⟨(claim_C10_cursor wPlain ⟨3, 4⟩).1.1,
   ((claim_C10_cursor wPlain ⟨3, 4⟩).2
     [RasterOp.push ⟨3, 4⟩, RasterOp.endLine, RasterOp.push ⟨3, 0⟩] wOther rfl rfl).1⟩

end Pgs

namespace Pgs

/-- C7: every discarded pixel write leaves the canvas completely unchanged:
(a) a coordinate above/left of the configured crop origin; (b)/(b') a
coordinate outside the window's width/height after crop subtraction (resp.
directly, when no crop is configured); (c)/(c') a coordinate outside the
destination canvas after adding the window placement; and (d) a pixel whose
alpha is 0 is never written, so it never overwrites what is already
composited at that coordinate. -/
theorem claim_C7_discards (w : ImageWindow) (x y : Nat) (px : LumaA) :
    (∀ cx cy, w.crop_origin = some (cx, cy) → (x < cx ∨ y < cy) →
      (w.put_pixel x y px).image = w.image) ∧
    (∀ cx cy, w.crop_origin = some (cx, cy) →
      (x - cx ≥ w.width ∨ y - cy ≥ w.height) →
      (w.put_pixel x y px).image = w.image) ∧
    (w.crop_origin = none → (x ≥ w.width ∨ y ≥ w.height) →
      (w.put_pixel x y px).image = w.image) ∧
    (∀ cx cy, w.crop_origin = some (cx, cy) →
      (x - cx + w.x ≥ w.image.width ∨ y - cy + w.y ≥ w.image.height) →
      (w.put_pixel x y px).image = w.image) ∧
    (w.crop_origin = none →
      (x + w.x ≥ w.image.width ∨ y + w.y ≥ w.image.height) →
      (w.put_pixel x y px).image = w.image) ∧
    (px.alpha = 0 → (w.put_pixel x y px).image = w.image) := by
  refine ⟨?_, ?_, ?_, ?_, ?_, ?_⟩
  · intro cx cy hc hxy
    simp [ImageWindow.put_pixel, hc, hxy]
  · intro cx cy hc hb
    unfold ImageWindow.put_pixel
    rw [hc]
    try dsimp only []
    by_cases h1 : x < cx ∨ y < cy
    · rw [if_pos h1]
    · rw [if_neg h1]
      try dsimp only []
      rw [if_pos hb]
  · intro hc hb
    unfold ImageWindow.put_pixel
    rw [hc]
    try dsimp only []
    rw [if_pos hb]
  · intro cx cy hc hb
    unfold ImageWindow.put_pixel
    rw [hc]
    try dsimp only []
    by_cases h1 : x < cx ∨ y < cy
    · rw [if_pos h1]
    · rw [if_neg h1]
      try dsimp only []
      by_cases h2 : x - cx ≥ w.width ∨ y - cy ≥ w.height
      · rw [if_pos h2]
      · rw [if_neg h2]
        try dsimp only []
        rw [if_pos hb]
  · intro hc hb
    unfold ImageWindow.put_pixel
    rw [hc]
    try dsimp only []
    by_cases h2 : x ≥ w.width ∨ y ≥ w.height
    · rw [if_pos h2]
    · rw [if_neg h2]
      try dsimp only []
      rw [if_pos hb]
  · intro ha
    unfold ImageWindow.put_pixel
    split
    · rfl
    · try dsimp only []
      split_ifs <;> simp_all

/-- C7 witness: on the cropped fixture, a push left of the crop origin, one
outside the window after crop subtraction, one falling off the canvas after
placement, and a transparent pixel each leave the canvas untouched. -/
theorem claim_C7_discards_witness :
    (wCrop.put_pixel 1 5 ⟨9, 9⟩).image = wCrop.image ∧
    (wCrop.put_pixel 9 5 ⟨9, 9⟩).image = wCrop.image ∧
    (wCrop.put_pixel 5 8 ⟨9, 9⟩).image = wCrop.image ∧
    (wPlain.put_pixel 0 0 ⟨9, 0⟩).image = wPlain.image :=
  ⟨(claim_C7_discards wCrop 1 5 ⟨9, 9⟩).1 2 3 rfl (by decide),
   (claim_C7_discards wCrop 9 5 ⟨9, 9⟩).2.1 2 3 rfl (by decide),
   (claim_C7_discards wCrop 5 8 ⟨9, 9⟩).2.2.2.1 2 3 rfl (by decide),
   (claim_C7_discards wPlain 0 0 ⟨9, 0⟩).2.2.2.2.2 rfl⟩

end Pgs

namespace Pgs

/-- C6: the object-reassembly state machine of `read_display_set` (applied
once per Object segment in arrival order, starting from no emitted objects
and no pending object): a single segment flagged both first- and
last-in-sequence yields exactly that one object, bytes unchanged; three
segments flagged (first), (neither), (last) — sharing one object id — yield
exactly one object whose bytes are the three payloads concatenated in
arrival order (the remaining fields come from the first segment). -/
theorem claim_C6_reassembly (o o1 o2 o3 : ObjectDefinition)
    (h : o.last_in_sequence = FIRST_IN_SEQUENCE ||| LAST_IN_SEQUENCE)
    (h1 : o1.last_in_sequence = FIRST_IN_SEQUENCE)
    (h2 : o2.last_in_sequence = 0)
    (h3 : o3.last_in_sequence = LAST_IN_SEQUENCE)
    (hid2 : o2.object_id = o1.object_id) (hid3 : o3.object_id = o1.object_id) :
    List.foldl (fun s od => ods_step s.1 s.2 od) ([], none) [o] = ([o], none) ∧
    List.foldl (fun s od => ods_step s.1 s.2 od) ([], none) [o1, o2, o3] =
      ([{ o1 with rle_data := o1.rle_data ++ o2.rle_data ++ o3.rle_data }], none) := by
  constructor
  · simp +decide [ods_step, LastInSequence.contains, h, FIRST_IN_SEQUENCE,
      LAST_IN_SEQUENCE]
  · simp +decide [ods_step, LastInSequence.contains, h1, h2, h3, FIRST_IN_SEQUENCE,
      LAST_IN_SEQUENCE]

/-- C6 witness: the concrete fixtures — `oBoth` alone, and
`oFirst`/`oMid`/`oLast` merging to bytes `[1,2,3,4,5]`. -/
theorem claim_C6_reassembly_witness :
    List.foldl (fun s od => ods_step s.1 s.2 od) ([], none) [oBoth] = ([oBoth], none) ∧
    List.foldl (fun s od => ods_step s.1 s.2 od) ([], none) [oFirst, oMid, oLast] =
      ([{ object_id := 9, object_version := 0, last_in_sequence := 0x40,
          width := 2, height := 1, rle_data := [1, 2, 3, 4, 5] }], none) :=
  ⟨(claim_C6_reassembly oBoth oFirst oMid oLast rfl rfl rfl rfl rfl rfl).1,
   (claim_C6_reassembly oBoth oFirst oMid oLast rfl rfl rfl rfl rfl rfl).2⟩

end Pgs

namespace Pgs

/-- C5: the claim says a color id absent from the active palette makes the
FRAME decode fail with `MissingColor`. The renderer does produce that error
(`render_into_image` on `c5frame`'s object data, with `c5frame`'s palette,
returns `Err(MissingColor { color_id: 7, palette_id: 0,
composition_number: 1 })`), but `process_mkv_frame` DISCARDS the renderer's
`Result` (the call at `src/bdsup/mod.rs:253-259` has no `?`), so the frame
decode still returns `Ok` — a silent skip, contradicting the claim and the
spec. -/
theorem claim_C5_missing_color_swallowed :
    read_display_set c5frame = POut.ok c5ds ∧
    (update_state PgsParser.new c5ds).palette_table 0 = some c5palette ∧
    (render_into_image (ImageWindow.with_window (Image.new 4 2) 0 0 4 2) 0 1 c5palette
        c5od.rle_data).2 = POut.err (PgsError.MissingColor 7 0 1) ∧
    (process_mkv_frame PgsParser.new c5frame).2.isOk = true :=
  ⟨rfl, rfl, rfl, rfl⟩

end Pgs

namespace Pgs

set_option maxRecDepth 4096 in
theorem land_192_cases (n : Nat) :
    n &&& 192 = 0 ∨ n &&& 192 = 64 ∨ n &&& 192 = 128 ∨ n &&& 192 = 192 := by
  have h0 : n &&& 255 = n % 256 := by
    have := Nat.and_pow_two_sub_one_eq_mod n 8
    norm_num at this
    exact this
  have h1 : n &&& 192 = (n % 256) &&& 192 := by
    rw [← h0, Nat.and_assoc]
    rfl
  rw [h1]
  have h2 : n % 256 < 256 := Nat.mod_lt _ (by norm_num)
  revert h2
  generalize n % 256 = m
  revert m
  decide

end Pgs

namespace Pgs

theorem rle_step_no_panic (image : ImageWindow) (pid cn : Nat)
    (pal : Nat → Option LumaA) (leader : Nat) (d0 : List Nat)
    (w : ImageWindow) (s : String) :
    rle_step image pid cn pal leader d0 ≠ Sum.inr (w, POut.panic s) := by
  unfold rle_step
  split
  · rcases d0 with - | ⟨follower, d1⟩
    · simp
    · try dsimp only []
      rcases land_192_cases follower with h | h | h | h <;>
        simp only [h] <;>
        norm_num <;>
        (repeat' split) <;>
        simp
  · split <;> simp

theorem render_loop_no_panic :
    ∀ (fuel : Nat) (image : ImageWindow) (pid cn : Nat) (pal : Nat → Option LumaA)
      (data : List Nat) (s : String), data.length < fuel →
      (render_loop fuel image pid cn pal data).2 ≠ POut.panic s := by
  intro fuel
  induction fuel with
  | zero =>
    intro image pid cn pal data s h
    omega
  | succ f ih =>
    intro image pid cn pal data s hlen
    rcases data with - | ⟨leader, d0⟩
    · simp [render_loop]
    · simp only [render_loop]
      cases hstep : rle_step image pid cn pal leader d0 with
      | inl pr =>
        obtain ⟨img2, rest⟩ := pr
        have hle := rle_step_inl_length hstep
        simp only [List.length_cons] at hlen
        exact ih img2 pid cn pal rest s (by omega)
      | inr r =>
        intro hc
        exact rle_step_no_panic image pid cn pal leader d0 r.1 s
          (by rw [hstep, ← hc])

theorem render_into_image_no_panic (image : ImageWindow) (pid cn : Nat)
    (pal : Nat → Option LumaA) (data : List Nat) (s : String) :
    (render_into_image image pid cn pal data).2 ≠ POut.panic s :=
  render_loop_no_panic (data.length + 1) image pid cn pal data s (Nat.lt_succ_self _)

end Pgs

namespace Pgs

theorem render_objects_skip (pid cn : Nat) (pal : Nat → Option LumaA)
    (objs : Table ObjectDefinition) (wins : Table SingleWindowDefinition) :
    ∀ (l1 : List CompositionObject) (img : Image) (tail : List CompositionObject),
      (∀ o ∈ l1, (objs o.object_id).isSome ∧ (wins o.window_id).isSome) →
      ∃ img2, render_objects pid cn pal objs wins img (l1 ++ tail) =
        render_objects pid cn pal objs wins img2 tail := by
  intro l1
  induction l1 with
  | nil =>
    intro img tail h
    exact ⟨img, rfl⟩
  | cons o l1 ih =>
    intro img tail h
    have ho := h o (List.mem_cons_self _ _)
    obtain ⟨od, hod⟩ := Option.isSome_iff_exists.mp ho.1
    obtain ⟨wd, hwd⟩ := Option.isSome_iff_exists.mp ho.2
    have hrec := fun o' ho' => h o' (List.mem_cons_of_mem _ ho')
    simp only [List.cons_append, render_objects, hod, hwd]
    rcases hr : render_into_image
        (if o.object_cropped_flag then
          ImageWindow.with_window_cropped img
            (wd.horizontal_pos + o.object_horizontal_pos)
            (wd.vertical_pos + o.object_vertical_pos)
            o.object_cropping_width o.object_cropping_height
            o.object_cropping_horizontal_pos o.object_cropping_vertical_pos
        else
          ImageWindow.with_window img
            (wd.horizontal_pos + o.object_horizontal_pos)
            (wd.vertical_pos + o.object_vertical_pos)
            wd.width wd.height)
        pid cn pal od.rle_data with ⟨w2, out⟩
    cases out with
    | panic s => exact absurd (by rw [hr]) (render_into_image_no_panic _ pid cn pal od.rle_data s)
    | ok u => simpa [hr] using ih w2.image tail hrec
    | err e => simpa [hr] using ih w2.image tail hrec

end Pgs

namespace Pgs

theorem foldl_upsert_palette_absent (pid : Nat) :
    ∀ (pds : List PaletteDefinition) (tbl : Table (Table LumaA)),
      (∀ pd ∈ pds, pd.palette_id ≠ pid) → tbl pid = none →
      (pds.foldl upsert_palette tbl) pid = none := by
  intro pds
  induction pds with
  | nil =>
    intro tbl h h0
    simpa using h0
  | cons pd pds ih =>
    intro tbl h h0
    simp only [List.foldl_cons]
    refine ih _ (fun q hq => h q (List.mem_cons_of_mem _ hq)) ?_
    simp only [upsert_palette, Table.insert]
    rw [if_neg (fun e => h pd (List.mem_cons_self _ _) e.symm)]
    exact h0

theorem foldl_insert_window_absent (wid : Nat) :
    ∀ (wds : List SingleWindowDefinition) (tbl : Table SingleWindowDefinition),
      (∀ wd ∈ wds, wd.window_id ≠ wid) → tbl wid = none →
      (wds.foldl (fun t w => Table.insert t w.window_id w) tbl) wid = none := by
  intro wds
  induction wds with
  | nil =>
    intro tbl h h0
    simpa using h0
  | cons wd wds ih =>
    intro tbl h h0
    simp only [List.foldl_cons]
    refine ih _ (fun q hq => h q (List.mem_cons_of_mem _ hq)) ?_
    simp only [Table.insert]
    rw [if_neg (fun e => h wd (List.mem_cons_self _ _) e.symm)]
    exact h0

theorem foldl_insert_object_absent (oid : Nat) :
    ∀ (ods : List ObjectDefinition) (tbl : Table ObjectDefinition),
      (∀ od ∈ ods, od.object_id ≠ oid) → tbl oid = none →
      (ods.foldl (fun t o => Table.insert t o.object_id o) tbl) oid = none := by
  intro ods
  induction ods with
  | nil =>
    intro tbl h h0
    simpa using h0
  | cons od ods ih =>
    intro tbl h h0
    simp only [List.foldl_cons]
    refine ih _ (fun q hq => h q (List.mem_cons_of_mem _ hq)) ?_
    simp only [Table.insert]
    rw [if_neg (fun e => h od (List.mem_cons_self _ _) e.symm)]
    exact h0

end Pgs

namespace Pgs

/-- C2: (1–3) after a Display Set with state EpochStart, every palette,
window and object id not re-added by that same Display Set is absent from
the corresponding table — in particular everything cached before it; (4) a
frame whose running composition (after its own cache update) references a
missing palette id fails with `MissingPalette`, and the first composition
object whose object (resp. window) id is missing fails the frame with
`MissingObject` (resp. `MissingWindow`), each carrying the missing id and
the composition number. -/
theorem claim_C2_epoch (p : PgsParser) (ds : PgsDisplaySet)
    (h : ds.pcs.composition_state = CompositionState.EpochStart) :
    (∀ pid, (∀ pd ∈ ds.pds, pd.palette_id ≠ pid) →
      (update_state p ds).palette_table pid = none) ∧
    (∀ wid, (∀ wd ∈ ds.wds, wd.window_id ≠ wid) →
      (update_state p ds).window_table wid = none) ∧
    (∀ oid, (∀ od ∈ ds.ods, od.object_id ≠ oid) →
      (update_state p ds).object_table oid = none) ∧
    (∀ (p2 : PgsParser) (ds2 : PgsDisplaySet) (pcs : PresentationComposition),
      (update_state p2 ds2).running_pcs = some pcs →
      ((update_state p2 ds2).palette_table pcs.palette_id = none →
        (apply_display_set p2 ds2).2 =
          POut.err (PgsError.MissingPalette pcs.palette_id pcs.composition_number)) ∧
      (∀ l1 obj l2, pcs.composition_objects = l1 ++ obj :: l2 →
        ((update_state p2 ds2).palette_table pcs.palette_id).isSome →
        (∀ o ∈ l1, ((update_state p2 ds2).object_table o.object_id).isSome ∧
          ((update_state p2 ds2).window_table o.window_id).isSome) →
        ((update_state p2 ds2).object_table obj.object_id = none →
          (apply_display_set p2 ds2).2 =
            POut.err (PgsError.MissingObject obj.object_id pcs.composition_number)) ∧
        (((update_state p2 ds2).object_table obj.object_id).isSome →
          (update_state p2 ds2).window_table obj.window_id = none →
          (apply_display_set p2 ds2).2 =
            POut.err (PgsError.MissingWindow obj.window_id pcs.composition_number)))) := by
  refine ⟨?_, ?_, ?_, ?_⟩
  · intro pid hpid
    simp only [update_state, h, reduceIte]
    exact foldl_upsert_palette_absent pid ds.pds _ hpid rfl
  · intro wid hwid
    simp only [update_state, h, reduceIte]
    exact foldl_insert_window_absent wid ds.wds _ hwid rfl
  · intro oid hoid
    simp only [update_state, h, reduceIte]
    exact foldl_insert_object_absent oid ds.ods _ hoid rfl
  · intro p2 ds2 pcs hrun
    constructor
    · intro hpal
      simp only [apply_display_set, render_pcs, hrun, hpal]
    · intro l1 obj l2 hobjs hpalSome hres
      obtain ⟨pal, hpal⟩ := Option.isSome_iff_exists.mp hpalSome
      constructor
      · intro hobj
        simp only [apply_display_set, render_pcs, hrun, hpal, hobjs]
        obtain ⟨img2, heq⟩ := render_objects_skip pcs.palette_id pcs.composition_number
          pal (update_state p2 ds2).object_table (update_state p2 ds2).window_table l1
          (Image.new pcs.width pcs.height) (obj :: l2) hres
        rw [heq]
        simp only [render_objects, hobj]
      · intro hobjSome hwin
        obtain ⟨od, hod⟩ := Option.isSome_iff_exists.mp hobjSome
        simp only [apply_display_set, render_pcs, hrun, hpal, hobjs]
        obtain ⟨img2, heq⟩ := render_objects_skip pcs.palette_id pcs.composition_number
          pal (update_state p2 ds2).object_table (update_state p2 ds2).window_table l1
          (Image.new pcs.width pcs.height) (obj :: l2) hres
        rw [heq]
        simp only [render_objects, hod, hwin]

/-- C2 witness: the pre-epoch caches of `pW` (palette 3, window 4, object 5)
are all absent after the EpochStart Display Set `dsW`, and the subsequent
Normal frame `dsN`, whose composition references pre-epoch palette 3, fails
with `MissingPalette 3` at composition number 9. -/
theorem claim_C2_epoch_witness :
    dsW.pcs.composition_state = CompositionState.EpochStart ∧
    (update_state pW dsW).palette_table 3 = none ∧
    (update_state pW dsW).window_table 4 = none ∧
    (update_state pW dsW).object_table 5 = none ∧
    (apply_display_set (update_state pW dsW) dsN).2 =
      POut.err (PgsError.MissingPalette 3 9) :=
  ⟨rfl,
   (claim_C2_epoch pW dsW rfl).1 3 (by decide),
   (claim_C2_epoch pW dsW rfl).2.1 4 (by decide),
   (claim_C2_epoch pW dsW rfl).2.2.1 5 (by decide),
   ((claim_C2_epoch pW dsW rfl).2.2.2 (update_state pW dsW) dsN dsN.pcs rfl).1 rfl⟩

end Pgs
